import Mathlib

/-!
Shallow embedding of the gomiabdns Mail-In-A-Box DNS API client
(package `gomiabdns`, file with `Client`, `doLogin`, `doRequest`,
`getApiWithPath`, `unmarshalRecords`, `unmarshalZones`, and the CLI
dispatcher in `cmd/miabdns/main.go`).

Modelling conventions:
- The process-wide mutable global `var apikey string` is threaded as an
  explicit `String` state argument and returned in each result record.
- External collaborators (the HTTP transport `http.DefaultClient.Do`,
  `io.ReadAll`, `totp.GenerateCode`, `encoding/json.Unmarshal`,
  `gjson.Get`) are modelled as oracle parameters describing their outcome
  on the one call the code makes; the code's own control flow around those
  outcomes is translated faithfully from the source.
- Go `panic` (in particular the nil-pointer dereference that occurs when
  `defer resp.Body.Close()` runs with a nil `resp` after a failed
  `http.DefaultClient.Do`) is modelled as the `GoResult.panicked`
  constructor: in Go the deferred `resp.Body.Close()` statement evaluates
  `resp.Body` when the `defer` statement executes, so a nil `resp`
  crashes before the `if err != nil` check can return.
- `url.URL` values are modelled as their path-segment lists; `JoinPath`
  appends segments, dropping empty elements like Go's `path.Join`.
-/

namespace Gomiabdns

/-- Result of a Go function call: normal value, returned `error`, or a
runtime panic that unwinds past the caller. -/
inductive GoResult (α : Type) where
  | ok (val : α)
  | err (msg : String)
  | panicked (msg : String)
deriving DecidableEq, Repr

/-- The Go runtime message for a nil-pointer dereference panic. -/
def nilDerefMsg : String :=
  "runtime error: invalid memory address or nil pointer dereference"

/-- A `net/url.URL`, reduced to the parts the client manipulates: its
path segments (the scheme/host prefix is folded into the first
segments, which never change after `New`). -/
structure URL where
  segments : List String
deriving DecidableEq, Repr

/-- `url.URL.JoinPath`: append path elements; empty elements are dropped,
as Go's `path.Join` drops empty strings. -/
def URL.joinPath (u : URL) (elems : List String) : URL :=
  ⟨u.segments ++ elems.filter (fun e => e ≠ "")⟩

/-- The `gomiabdns.Client` struct: parsed base URL plus credentials. -/
structure Client where
  ApiUrl : URL
  email : String
  password : String
  totp_secret : String
deriving DecidableEq, Repr

/-- Whether `sub` occurs starting at the head of `s`. -/
def listStartsWith : List Char → List Char → Bool
  | _, [] => true
  | [], _ :: _ => false
  | a :: as, b :: bs => a = b && listStartsWith as bs

/-- Whether `sub` occurs anywhere in `s`. -/
def listHasSub : List Char → List Char → Bool
  | [], sub => sub.isEmpty
  | a :: rest, sub => listStartsWith (a :: rest) sub || listHasSub rest sub

/-- Go `strings.Contains s sub`. -/
def strContains (s sub : String) : Bool :=
  listHasSub s.data sub.data

/-- UTF-8 encoding of one character, as Go's `[]byte(string)` produces. -/
def utf8Bytes (c : Char) : List Nat :=
  let n := c.toNat
  if n < 128 then [n]
  else if n < 2048 then
    [192 + n / 64, 128 + n % 64]
  else if n < 65536 then
    [224 + n / 4096, 128 + n / 64 % 64, 128 + n % 64]
  else
    [240 + n / 262144, 128 + n / 4096 % 64, 128 + n / 64 % 64, 128 + n % 64]

/-- The bytes of a string under UTF-8, Go's `[]byte(s)`. -/
def strBytes (s : String) : List Nat :=
  s.data.foldr (fun c acc => utf8Bytes c ++ acc) []

/-- The standard base64 alphabet used by Go's `base64.StdEncoding`. -/
def base64Alphabet : List Char :=
  "ABCDEFGHIJKLMNOPQRSTUVWXYZabcdefghijklmnopqrstuvwxyz0123456789+/".data

/-- The base64 digit for a 6-bit value. -/
def b64char (n : Nat) : Char := base64Alphabet.getD n '?'

/-- Go `base64.StdEncoding.EncodeToString`, processing bytes three at a
time with `=` padding. -/
def base64Chunks : List Nat → String
  | [] => ""
  | [a] =>
    let g := a * 65536
    String.mk [b64char (g / 262144 % 64), b64char (g / 4096 % 64)] ++ "=="
  | [a, b] =>
    let g := a * 65536 + b * 256
    String.mk [b64char (g / 262144 % 64), b64char (g / 4096 % 64),
               b64char (g / 64 % 64)] ++ "="
  | a :: b :: c :: rest =>
    let g := a * 65536 + b * 256 + c
    String.mk [b64char (g / 262144 % 64), b64char (g / 4096 % 64),
               b64char (g / 64 % 64), b64char (g % 64)] ++ base64Chunks rest

/-- `base64.StdEncoding.EncodeToString([]byte(s))`. -/
def base64OfString (s : String) : String := base64Chunks (strBytes s)

/-- The `gjson.Get` results on the login response body: `gjson` returns
the empty string for a missing field. -/
structure LoginBody where
  status : String
  privileges : String
  api_key : String
  reason : String
deriving DecidableEq, Repr

/-- Outcome of the one login network round-trip (`http.DefaultClient.Do`
followed by `io.ReadAll`), as seen by `doLogin`. -/
inductive LoginOutcome where
  | connError (msg : String)
  | readError (msg : String)
  | body (b : LoginBody)
deriving DecidableEq, Repr

/-- Outcome of the main request round-trip, as seen by `doRequest`. -/
inductive HttpOutcome where
  | connError (msg : String)
  | readError (msg : String)
  | ok (body : String)
deriving DecidableEq, Repr

/-- Result of `Client.doLogin`: the returned error value (or panic), the
new value of the global `apikey`, and whether the login POST was actually
sent on the network. -/
structure DoLoginResult where
  res : GoResult Unit
  apikey : String
  networkCalled : Bool
deriving DecidableEq, Repr

/-- The part of `doLogin` after the login POST has been sent: handles the
transport outcome and the `status` dispatch.  When `Do` fails, `resp` is
nil and the already-queued `defer resp.Body.Close()` dereferences it,
panicking before `return err` is reached. -/
def doLoginNet (apikey : String) (net : LoginOutcome) : DoLoginResult :=
  match net with
  | .connError _ =>
      { res := .panicked nilDerefMsg, apikey := apikey, networkCalled := true }
  | .readError msg =>
      { res := .err msg, apikey := apikey, networkCalled := true }
  | .body b =>
      if b.status = "ok" then
        if strContains b.privileges "admin" = false then
          { res := .err "Account does not have admin priveleges",
            apikey := apikey, networkCalled := true }
        else
          { res := .ok (), apikey := b.api_key, networkCalled := true }
      else if b.status = "invalid" then
        { res := .err ("Invalid response: " ++ b.reason),
          apikey := "", networkCalled := true }
      else
        { res := .err ("Unforeseen return value: " ++ b.status),
          apikey := "", networkCalled := true }

/-- `Client.doLogin`.  `apikey` is the current value of the global;
`totpRes` is the outcome of `totp.GenerateCode` (consulted only when a
TOTP secret is configured); `net` is the outcome of the login POST.
Request construction (`http.NewRequestWithContext` with a valid method
and URL) cannot fail and is not modelled.  The cached-key early return
sits after the request is built but before any network traffic. -/
def doLogin (c : Client) (apikey : String) (totpRes : Except String String)
    (net : LoginOutcome) : DoLoginResult :=
  if apikey ≠ "" then
    { res := .ok (), apikey := apikey, networkCalled := false }
  else if c.totp_secret ≠ "" then
    match totpRes with
    | .error e =>
        { res := .err ("Error generating TOTP token: " ++ e),
          apikey := apikey, networkCalled := false }
    | .ok _ => doLoginNet apikey net
  else doLoginNet apikey net

/-- An HTTP request as built by `doRequest`: method, URL, headers in the
order they are attached, and the raw body (empty string for no body). -/
structure HttpRequest where
  method : String
  url : URL
  headers : List (String × String)
  body : String
deriving DecidableEq, Repr

/-- Result of `Client.doRequest`: returned body bytes (or error/panic),
the new global `apikey`, whether a login network call happened inside the
embedded `doLogin`, and the main request actually issued, if any. -/
structure DoRequestResult where
  res : GoResult String
  apikey : String
  loginNetworkCalled : Bool
  mainRequest : Option HttpRequest
deriving DecidableEq, Repr

/-- `Client.doRequest`: always runs `doLogin` first, then refuses to
proceed on an empty key, then issues the main request with
`Accept: json` and `Authorization: Basic base64(email:apikey)` headers.
It shares the `defer resp.Body.Close()` nil-dereference pattern of
`doLogin`, so a failed `Do` panics here too. -/
def doRequest (c : Client) (apikey : String) (method : String)
    (requestURL : URL) (value : String) (totpRes : Except String String)
    (loginNet : LoginOutcome) (mainNet : HttpOutcome) : DoRequestResult :=
  let L := doLogin c apikey totpRes loginNet
  match L.res with
    | .panicked m =>
        { res := .panicked m, apikey := L.apikey,
          loginNetworkCalled := L.networkCalled, mainRequest := none }
    | .err e =>
        { res := .err ("Could not login: " ++ e), apikey := L.apikey,
          loginNetworkCalled := L.networkCalled, mainRequest := none }
    | .ok _ =>
      if L.apikey = "" then
        { res := .err "Could not login", apikey := L.apikey,
          loginNetworkCalled := L.networkCalled, mainRequest := none }
      else
        let req : HttpRequest :=
          { method := method, url := requestURL,
            headers := [("Accept", "json"),
              ("Authorization",
                "Basic " ++ base64OfString (c.email ++ ":" ++ L.apikey))],
            body := value }
        match mainNet with
        | .connError _ =>
            { res := .panicked nilDerefMsg, apikey := L.apikey,
              loginNetworkCalled := L.networkCalled, mainRequest := some req }
        | .readError m =>
            { res := .err m, apikey := L.apikey,
              loginNetworkCalled := L.networkCalled, mainRequest := some req }
        | .ok body =>
            { res := .ok body, apikey := L.apikey,
              loginNetworkCalled := L.networkCalled, mainRequest := some req }

/-- The `sort-order` sub-object of a `DNSRecord`. -/
structure RecordSortOrder where
  ByCreated : Int
  ByName : Int
deriving DecidableEq, Repr

/-- The `gomiabdns.DNSRecord` struct decoded from the API's JSON. -/
structure DNSRecord where
  QualifiedName : String
  RecordType : String
  sortOrder : RecordSortOrder
  Value : String
  Zone : String
deriving DecidableEq, Repr

/-- The `gomiabdns.APIStatus` struct: an error payload from the API. -/
structure APIStatus where
  Status : String
  Reason : String
deriving DecidableEq, Repr

/-- A `gomiabdns.DNSZone` is a bare zone-name string. -/
def DNSZone := String
deriving instance DecidableEq, Repr for DNSZone

/-- `unmarshalRecords`: first try to decode the body as a JSON array of
records; on failure re-decode it as an `APIStatus` and report its
`Reason`, falling back to the original decode error.  The two
`json.Unmarshal` calls on the same body are modelled by their outcomes
`parseRecs` and `parseStatus`. -/
def unmarshalRecords (parseRecs : Except String (List DNSRecord))
    (parseStatus : Except String APIStatus) : Except String (List DNSRecord) :=
  match parseRecs with
  | .ok result => .ok result
  | .error e =>
    match parseStatus with
    | .error _ => .error e
    | .ok errorResult => .error ("Error while decoding json: " ++ errorResult.Reason)

/-- `unmarshalZones`: same shape as `unmarshalRecords` for zone names. -/
def unmarshalZones (parseZones : Except String (List DNSZone))
    (parseStatus : Except String APIStatus) : Except String (List DNSZone) :=
  match parseZones with
  | .ok result => .ok result
  | .error e =>
    match parseStatus with
    | .error _ => .error e
    | .ok errorResult => .error ("Error while decoding json: " ++ errorResult.Reason)

/-- `getApiWithPath`: root at `<base>/dns/custom`, then append `name`
and `rtype` only when non-empty; an empty `name` ignores `rtype`. -/
def getApiWithPath (apiUrl : URL) (name : String) (rtype : String) : URL :=
  let apiUrl := apiUrl.joinPath ["dns", "custom"]
  if name ≠ "" then
    if rtype ≠ "" then apiUrl.joinPath [name, rtype]
    else apiUrl.joinPath [name]
  else apiUrl

/-- Result of a public client operation returning `α`. -/
structure OpResult (α : Type) where
  res : GoResult α
  apikey : String
  loginNetworkCalled : Bool
  mainRequest : Option HttpRequest
deriving DecidableEq, Repr

/-- Lift a `doRequest` outcome into an operation result via a decoder of
the body (identity for operations that print or return the raw body). -/
def opFromRequest {α : Type} (r : DoRequestResult)
    (decode : String → Except String α) : OpResult α :=
  match r.res with
  | .panicked m =>
      { res := .panicked m, apikey := r.apikey,
        loginNetworkCalled := r.loginNetworkCalled, mainRequest := r.mainRequest }
  | .err e =>
      { res := .err e, apikey := r.apikey,
        loginNetworkCalled := r.loginNetworkCalled, mainRequest := r.mainRequest }
  | .ok body =>
    match decode body with
    | .ok a =>
        { res := .ok a, apikey := r.apikey,
          loginNetworkCalled := r.loginNetworkCalled, mainRequest := r.mainRequest }
    | .error e =>
        { res := .err e, apikey := r.apikey,
          loginNetworkCalled := r.loginNetworkCalled, mainRequest := r.mainRequest }

/-- `Client.GetHosts`: GET on `getApiWithPath`, then `unmarshalRecords`. -/
def GetHosts (c : Client) (apikey : String) (name : String)
    (recordType : String) (totpRes : Except String String)
    (loginNet : LoginOutcome) (mainNet : HttpOutcome)
    (parseRecs : Except String (List DNSRecord))
    (parseStatus : Except String APIStatus) : OpResult (List DNSRecord) :=
  let apiUrl := getApiWithPath c.ApiUrl name recordType
  opFromRequest (doRequest c apikey "GET" apiUrl "" totpRes loginNet mainNet)
    (fun _ => unmarshalRecords parseRecs parseStatus)

/-- `Client.AddHost`: validate that all three parameters are non-empty
before any network activity, then POST the value. -/
def AddHost (c : Client) (apikey : String) (name recordType value : String)
    (totpRes : Except String String) (loginNet : LoginOutcome)
    (mainNet : HttpOutcome) : OpResult Unit :=
  if name = "" ∨ recordType = "" ∨ value = "" then
    { res := .err ("Missing parameters to AddHost. all are required. name: "
        ++ name ++ ", recordType: " ++ recordType ++ ", value: " ++ value ++ " "),
      apikey := apikey, loginNetworkCalled := false, mainRequest := none }
  else
    opFromRequest
      (doRequest c apikey "POST" (getApiWithPath c.ApiUrl name recordType)
        value totpRes loginNet mainNet)
      (fun _ => .ok ())

/-- `Client.UpdateHost`: same validation as `AddHost`, then PUT. -/
def UpdateHost (c : Client) (apikey : String) (name recordType value : String)
    (totpRes : Except String String) (loginNet : LoginOutcome)
    (mainNet : HttpOutcome) : OpResult Unit :=
  if name = "" ∨ recordType = "" ∨ value = "" then
    { res := .err ("Missing parameters to UpdateHost. all are required. name: "
        ++ name ++ ", recordType: " ++ recordType ++ ", value: " ++ value ++ " "),
      apikey := apikey, loginNetworkCalled := false, mainRequest := none }
  else
    opFromRequest
      (doRequest c apikey "PUT" (getApiWithPath c.ApiUrl name recordType)
        value totpRes loginNet mainNet)
      (fun _ => .ok ())

/-- `Client.DeleteHost`: only `name` is required, then DELETE. -/
def DeleteHost (c : Client) (apikey : String) (name recordType value : String)
    (totpRes : Except String String) (loginNet : LoginOutcome)
    (mainNet : HttpOutcome) : OpResult Unit :=
  if name = "" then
    { res := .err ("Missing parameter to DeleteHost. Name is required. name: "
        ++ name),
      apikey := apikey, loginNetworkCalled := false, mainRequest := none }
  else
    opFromRequest
      (doRequest c apikey "DELETE" (getApiWithPath c.ApiUrl name recordType)
        value totpRes loginNet mainNet)
      (fun _ => .ok ())

/-- `Client.GetZones`: GET on `<base>/dns/zones`, then `unmarshalZones`.
It goes through `doRequest`, hence through `doLogin`. -/
def GetZones (c : Client) (apikey : String) (totpRes : Except String String)
    (loginNet : LoginOutcome) (mainNet : HttpOutcome)
    (parseZones : Except String (List DNSZone))
    (parseStatus : Except String APIStatus) : OpResult (List DNSZone) :=
  let apiUrl := c.ApiUrl.joinPath ["dns", "zones"]
  opFromRequest (doRequest c apikey "GET" apiUrl "" totpRes loginNet mainNet)
    (fun _ => unmarshalZones parseZones parseStatus)

/-- `Client.GetZonefile`: GET on `<base>/dns/zonefile/<zone>`, returning
the raw body.  It goes through `doRequest`, hence through `doLogin`. -/
def GetZonefile (c : Client) (apikey : String) (zone : String)
    (totpRes : Except String String) (loginNet : LoginOutcome)
    (mainNet : HttpOutcome) : OpResult String :=
  let apiUrl := c.ApiUrl.joinPath ["dns", "zonefile", zone]
  opFromRequest (doRequest c apikey "GET" apiUrl "" totpRes loginNet mainNet)
    (fun body => .ok body)

deriving instance DecidableEq for Except

/-- One client operation call as seen by `doRequest`: its request shape
plus the oracle outcomes of the collaborator calls it makes. -/
structure StepInput where
  method : String
  url : URL
  value : String
  totpRes : Except String String
  loginNet : LoginOutcome
  mainNet : HttpOutcome
deriving DecidableEq, Repr

/-- Run a sequence of operation calls in one process, threading the
global `apikey`, and count how many login network calls were made. -/
def runSteps (c : Client) (apikey : String) : List StepInput → Nat
  | [] => 0
  | s :: rest =>
    let r := doRequest c apikey s.method s.url s.value s.totpRes s.loginNet s.mainNet
    (if r.loginNetworkCalled then 1 else 0) + runSteps c r.apikey rest

/-- The valid CLI commands of `cmd/miabdns/main.go`. -/
def commands : List String := ["list", "add", "update", "delete", "zones", "zonefile"]

/-- Observable outcome of the CLI `main` up to command dispatch. -/
structure CliOutcome where
  exitCode : Nat
  stdoutLines : List String
  stderrLines : List String
  dispatched : Option String
deriving DecidableEq, Repr

/-- The command-validation stage of `main`: an empty `-command` defaults
to `list`; an unknown command prints the usage line with `fmt.Println`
(standard output) and returns from `main` normally, so the process exits
with status 0.  A valid command is handed to the dispatch `switch`
(whose downstream behaviour is outside this stage). -/
def mainDispatch (command : String) : CliOutcome :=
  let command := if command = "" then "list" else command
  if commands.contains command = false then
    { exitCode := 0,
      stdoutLines := ["The command argument must be a valid command: "
        ++ String.intercalate "," commands],
      stderrLines := [], dispatched := none }
  else
    { exitCode := 0, stdoutLines := [], stderrLines := [],
      dispatched := some command }

/-- A concrete parsed base URL for concrete evaluations. -/
def testURL : URL := ⟨["https://box.example.com", "admin"]⟩

/-- A concrete client (no TOTP secret configured). -/
def testClient : Client :=
  { ApiUrl := testURL, email := "admin@example.com",
    password := "hunter2", totp_secret := "" }

/-- A successful login response body with admin privileges. -/
def okBody : LoginBody :=
  { status := "ok", privileges := "admin;mail", api_key := "APIKEY123", reason := "" }

/-- A successful login response body without admin privileges. -/
def noAdminBody : LoginBody :=
  { status := "ok", privileges := "mail", api_key := "K2", reason := "" }

/-- An `invalid`-status login response body. -/
def invalidBody : LoginBody :=
  { status := "invalid", privileges := "", api_key := "", reason := "bad credentials" }

/-- A concrete operation call whose login round-trip succeeds. -/
def stepOk : StepInput :=
  { method := "GET", url := testURL, value := "", totpRes := .ok "",
    loginNet := .body okBody, mainNet := .ok "[]" }

lemma doLoginNet_networkCalled (k : String) (n : LoginOutcome) :
    (doLoginNet k n).networkCalled = true := by
  cases n with
  | connError m => rfl
  | readError m => rfl
  | body b =>
    simp only [doLoginNet]
    split
    · split <;> rfl
    · split <;> rfl

lemma doLogin_cached (c : Client) (k : String) (tr : Except String String)
    (ln : LoginOutcome) (hk : k ≠ "") :
    doLogin c k tr ln = ⟨.ok (), k, false⟩ := by
  simp [doLogin, hk]

lemma doLogin_fresh_networkCalled (c : Client) (tr : Except String String)
    (ln : LoginOutcome) (htot : c.totp_secret = "") :
    (doLogin c "" tr ln).networkCalled = true := by
  simp [doLogin, htot, doLoginNet_networkCalled]

lemma doLogin_fresh_ok (c : Client) (b : LoginBody) (tr : Except String String)
    (htot : c.totp_secret = "") (hst : b.status = "ok")
    (hadm : strContains b.privileges "admin" = true) :
    doLogin c "" tr (.body b) = ⟨.ok (), b.api_key, true⟩ := by
  simp [doLogin, htot, doLoginNet, hst, hadm]

lemma doLogin_invalid (c : Client) (b : LoginBody) (tr : Except String String)
    (htot : c.totp_secret = "") (hst : b.status = "invalid") :
    doLogin c "" tr (.body b)
      = ⟨.err ("Invalid response: " ++ b.reason), "", true⟩ := by
  simp [doLogin, htot, doLoginNet, hst]

lemma doRequest_state (c : Client) (k m : String) (u : URL) (v : String)
    (tr : Except String String) (ln : LoginOutcome) (mn : HttpOutcome) :
    (doRequest c k m u v tr ln mn).apikey = (doLogin c k tr ln).apikey ∧
    (doRequest c k m u v tr ln mn).loginNetworkCalled
      = (doLogin c k tr ln).networkCalled := by
  simp only [doRequest]
  generalize doLogin c k tr ln = L
  obtain ⟨res, key, ncall⟩ := L
  cases res with
  | panicked m => exact ⟨rfl, rfl⟩
  | err e => exact ⟨rfl, rfl⟩
  | ok v =>
    by_cases hk : key = ""
    · simp [hk]
    · simp only [hk, if_false, ite_false]
      cases mn <;> simp

lemma opFromRequest_loginCalled {α : Type} (r : DoRequestResult)
    (d : String → Except String α) :
    (opFromRequest r d).loginNetworkCalled = r.loginNetworkCalled := by
  obtain ⟨res, key, lc, mr⟩ := r
  cases res with
  | panicked m => rfl
  | err e => rfl
  | ok body =>
    simp only [opFromRequest]
    cases hd : d body <;> simp [hd]

lemma doRequest_fresh_loginCalled (c : Client) (m : String) (u : URL)
    (v : String) (tr : Except String String) (ln : LoginOutcome)
    (mn : HttpOutcome) (htot : c.totp_secret = "") :
    (doRequest c "" m u v tr ln mn).loginNetworkCalled = true := by
  rw [(doRequest_state c "" m u v tr ln mn).2]
  exact doLogin_fresh_networkCalled c tr ln htot

lemma runSteps_cached (c : Client) (k : String) (hk : k ≠ "") :
    ∀ l : List StepInput, runSteps c k l = 0
  | [] => by simp [runSteps]
  | s :: rest => by
    have hs := doRequest_state c k s.method s.url s.value s.totpRes s.loginNet s.mainNet
    have hl := doLogin_cached c k s.totpRes s.loginNet hk
    have hk2 : (doRequest c k s.method s.url s.value s.totpRes s.loginNet s.mainNet).apikey = k := by
      rw [hs.1, hl]
    have hc : (doRequest c k s.method s.url s.value s.totpRes s.loginNet s.mainNet).loginNetworkCalled = false := by
      rw [hs.2, hl]
    simp [runSteps, hk2, hc, runSteps_cached c k hk rest]

/-- Claim C1, counterexample: the claim states that `GetZones` does not
perform the login step, but on a concrete client with an empty key cache
a `GetZones` call does perform a login network call (it goes through
`doRequest`, which always runs `doLogin` first). -/
theorem getZones_performs_login_step_cex :
    (GetZones testClient "" (.ok "") (.body okBody) (.ok "[]")
      (.ok []) (.error "not a status")).loginNetworkCalled = true := by
  decide

/-- Claim C1 (amended): every public client operation — `GetHosts`,
`GetZones`, `GetZonefile`, and (once their parameter validation passes)
`AddHost`, `UpdateHost`, `DeleteHost` — performs the login step before
its HTTP request: with an empty key cache each of them makes a login
network call. -/
theorem all_operations_login_first (c : Client) (n t v z : String)
    (tr : Except String String) (ln : LoginOutcome) (mn : HttpOutcome)
    (pr : Except String (List DNSRecord)) (pz : Except String (List DNSZone))
    (ps : Except String APIStatus) (htot : c.totp_secret = "") :
    (GetHosts c "" n t tr ln mn pr ps).loginNetworkCalled = true ∧
    (GetZones c "" tr ln mn pz ps).loginNetworkCalled = true ∧
    (GetZonefile c "" z tr ln mn).loginNetworkCalled = true ∧
    (n ≠ "" → t ≠ "" → v ≠ "" →
      (AddHost c "" n t v tr ln mn).loginNetworkCalled = true ∧
      (UpdateHost c "" n t v tr ln mn).loginNetworkCalled = true) ∧
    (n ≠ "" → (DeleteHost c "" n t v tr ln mn).loginNetworkCalled = true) := by
  refine ⟨?_, ?_, ?_, ?_, ?_⟩
  · rw [GetHosts, opFromRequest_loginCalled]
    exact doRequest_fresh_loginCalled c "GET" _ "" tr ln mn htot
  · rw [GetZones, opFromRequest_loginCalled]
    exact doRequest_fresh_loginCalled c "GET" _ "" tr ln mn htot
  · rw [GetZonefile, opFromRequest_loginCalled]
    exact doRequest_fresh_loginCalled c "GET" _ "" tr ln mn htot
  · intro hn ht hv
    constructor
    · rw [AddHost, if_neg (by simp [hn, ht, hv]), opFromRequest_loginCalled]
      exact doRequest_fresh_loginCalled c "POST" _ v tr ln mn htot
    · rw [UpdateHost, if_neg (by simp [hn, ht, hv]), opFromRequest_loginCalled]
      exact doRequest_fresh_loginCalled c "PUT" _ v tr ln mn htot
  · intro hn
    rw [DeleteHost, if_neg hn, opFromRequest_loginCalled]
    exact doRequest_fresh_loginCalled c "DELETE" _ v tr ln mn htot

/-- Claim C1 (amended), witness at concrete inputs. -/
theorem all_operations_login_first_witness :
    (GetHosts testClient "" "h" "A" (.ok "") (.body okBody) (.ok "[]")
      (.ok []) (.error "x")).loginNetworkCalled = true ∧
    (GetZones testClient "" (.ok "") (.body okBody) (.ok "[]")
      (.ok []) (.error "x")).loginNetworkCalled = true ∧
    (GetZonefile testClient "" "example.com" (.ok "") (.body okBody)
      (.ok "zonefile text")).loginNetworkCalled = true ∧
    (AddHost testClient "" "h" "A" "1.2.3.4" (.ok "") (.body okBody)
      (.ok "ok")).loginNetworkCalled = true ∧
    (UpdateHost testClient "" "h" "A" "1.2.3.4" (.ok "") (.body okBody)
      (.ok "ok")).loginNetworkCalled = true ∧
    (DeleteHost testClient "" "h" "A" "1.2.3.4" (.ok "") (.body okBody)
      (.ok "ok")).loginNetworkCalled = true := by
  have h := all_operations_login_first testClient "h" "A" "1.2.3.4" "example.com"
    (.ok "") (.body okBody) (.ok "ok") (.ok []) (.ok []) (.error "x") rfl
  refine ⟨?_, h.2.1, ?_, ?_, ?_, h.2.2.2.2 (by decide)⟩
  · exact (all_operations_login_first testClient "h" "A" "1.2.3.4" "example.com"
      (.ok "") (.body okBody) (.ok "[]") (.ok []) (.ok []) (.error "x") rfl).1
  · exact (all_operations_login_first testClient "h" "A" "1.2.3.4" "example.com"
      (.ok "") (.body okBody) (.ok "zonefile text") (.ok []) (.ok []) (.error "x") rfl).2.2.1
  · exact (h.2.2.2.1 (by decide) (by decide) (by decide)).1
  · exact (h.2.2.2.1 (by decide) (by decide) (by decide)).2

/-- Claim C3: the spec says a failed login network call propagates as a
transport error, but the code queues `defer resp.Body.Close()` before
checking the error from `http.DefaultClient.Do`; on a connection error
`resp` is nil and the deferred close dereferences it, so `doLogin`
panics instead of returning the error.  The cached key stays empty. -/
theorem doLogin_conn_error_panics :
    doLogin testClient "" (.ok "") (.connError "dial tcp: connection refused")
      = { res := .panicked nilDerefMsg, apikey := "", networkCalled := true } := by
  decide

/-- Claim C7: `unmarshalRecords` returns the record array when the array
parse succeeds; when it fails and the body parses as an `APIStatus`, it
returns a decode error carrying the status `Reason`; when both parses
fail, it returns the original decode error. -/
theorem unmarshalRecords_error_translation (l : List DNSRecord)
    (e e2 : String) (s : APIStatus) (ps : Except String APIStatus) :
    unmarshalRecords (.ok l) ps = .ok l ∧
    unmarshalRecords (.error e) (.ok s)
      = .error ("Error while decoding json: " ++ s.Reason) ∧
    unmarshalRecords (.error e) (.error e2) = .error e :=
  ⟨rfl, rfl, rfl⟩

/-- Claim C9, counterexample: on the unknown command `frobnicate`, `main`
exits with status 0 (not non-zero) and writes nothing to standard error
(the usage line goes to standard output via `fmt.Println`). -/
theorem unknown_command_exit_status_cex :
    (mainDispatch "frobnicate").exitCode = 0 ∧
    (mainDispatch "frobnicate").stderrLines = [] ∧
    (mainDispatch "frobnicate").stdoutLines
      = ["The command argument must be a valid command: list,add,update,delete,zones,zonefile"] ∧
    (mainDispatch "frobnicate").dispatched = none := by
  decide

/-- Claim C9 (amended): for every non-empty `-command` value outside
`{list, add, update, delete, zones, zonefile}`, `main` prints the usage
message to standard output and returns without crashing and without
dispatching, exiting with status 0 and nothing on standard error. -/
theorem unknown_command_usage_message (cmd : String) (h1 : cmd ≠ "")
    (h2 : commands.contains cmd = false) :
    mainDispatch cmd
      = { exitCode := 0,
          stdoutLines := ["The command argument must be a valid command: list,add,update,delete,zones,zonefile"],
          stderrLines := [], dispatched := none } := by
  simp only [mainDispatch]
  rw [if_neg h1]
  split
  · decide
  · next hcontra => exact absurd h2 hcontra

/-- Claim C9 (amended), witness at a concrete unknown command. -/
theorem unknown_command_usage_message_witness :
    mainDispatch "bogus"
      = { exitCode := 0,
          stdoutLines := ["The command argument must be a valid command: list,add,update,delete,zones,zonefile"],
          stderrLines := [], dispatched := none } :=
  unknown_command_usage_message "bogus" (by decide) (by decide)

/-- Claim C10: with an empty name and a non-empty record type,
`getApiWithPath` yields exactly `<base>/dns/custom`, the same URL as the
both-empty case, so the record type is ignored when no name is given. -/
theorem getApiWithPath_empty_name_ignores_rtype (u : URL) (rt : String)
    (h : rt ≠ "") :
    getApiWithPath u "" rt = u.joinPath ["dns", "custom"] ∧
    getApiWithPath u "" rt = getApiWithPath u "" "" := by
  exact ⟨rfl, rfl⟩

/-- Claim C10, witness at a concrete record type. -/
theorem getApiWithPath_empty_name_ignores_rtype_witness :
    getApiWithPath testURL "" "A" = testURL.joinPath ["dns", "custom"] ∧
    getApiWithPath testURL "" "A" = getApiWithPath testURL "" "" :=
  getApiWithPath_empty_name_ignores_rtype testURL "A" (by decide)

/-- Claim C2: with a non-empty cached key, `doLogin` returns success
immediately without a login network call and leaves the key unchanged;
hence after one successful login from an empty cache, a whole sequence
of operation calls makes exactly one login network call in total. -/
theorem one_login_per_process (c : Client) (b : LoginBody) (s0 : StepInput)
    (rest : List StepInput) (htot : c.totp_secret = "")
    (hln : s0.loginNet = .body b) (hst : b.status = "ok")
    (hadm : strContains b.privileges "admin" = true) (hkey : b.api_key ≠ "") :
    (∀ k tr ln, k ≠ "" → doLogin c k tr ln = ⟨.ok (), k, false⟩) ∧
    runSteps c "" (s0 :: rest) = 1 := by
  refine ⟨fun k tr ln hk => doLogin_cached c k tr ln hk, ?_⟩
  have h1 : doLogin c "" s0.totpRes (.body b) = ⟨.ok (), b.api_key, true⟩ :=
    doLogin_fresh_ok c b s0.totpRes htot hst hadm
  have hs := doRequest_state c "" s0.method s0.url s0.value s0.totpRes s0.loginNet s0.mainNet
  have hk2 : (doRequest c "" s0.method s0.url s0.value s0.totpRes s0.loginNet s0.mainNet).apikey
      = b.api_key := by
    rw [hs.1, hln, h1]
  have hc : (doRequest c "" s0.method s0.url s0.value s0.totpRes s0.loginNet s0.mainNet).loginNetworkCalled
      = true := by
    rw [hs.2, hln, h1]
  simp [runSteps, hk2, hc, runSteps_cached c b.api_key hkey rest]

/-- Claim C2, witness: the cached-key fast path at a concrete key, and a
three-operation process making exactly one login network call. -/
theorem one_login_per_process_witness :
    doLogin testClient "SOMEKEY" (.ok "") (.body invalidBody)
      = ⟨.ok (), "SOMEKEY", false⟩ ∧
    runSteps testClient "" [stepOk, stepOk, stepOk] = 1 := by
  have h := one_login_per_process testClient okBody stepOk [stepOk, stepOk]
    rfl rfl rfl (by decide) (by decide)
  exact ⟨h.1 "SOMEKEY" (.ok "") (.body invalidBody) (by decide), h.2⟩

/-- Claim C4: a login response with status `invalid` clears the cached
key, makes `doLogin` fail with an error carrying the server `reason`,
and a `GetHosts` call issued afterward performs the login network call
again. -/
theorem invalid_login_clears_key_and_relogins (c : Client) (b : LoginBody)
    (tr tr2 : Except String String) (n t : String) (ln2 : LoginOutcome)
    (mn2 : HttpOutcome) (pr : Except String (List DNSRecord))
    (ps : Except String APIStatus) (htot : c.totp_secret = "")
    (hst : b.status = "invalid") :
    (doLogin c "" tr (.body b)).apikey = "" ∧
    (doLogin c "" tr (.body b)).res = .err ("Invalid response: " ++ b.reason) ∧
    (GetHosts c (doLogin c "" tr (.body b)).apikey n t tr2 ln2 mn2 pr ps).loginNetworkCalled
      = true := by
  have h := doLogin_invalid c b tr htot hst
  refine ⟨by rw [h], by rw [h], ?_⟩
  simp only [h]
  rw [GetHosts, opFromRequest_loginCalled]
  exact doRequest_fresh_loginCalled c "GET" _ "" tr2 ln2 mn2 htot

/-- Claim C4, witness at a concrete `invalid` response. -/
theorem invalid_login_clears_key_and_relogins_witness :
    (doLogin testClient "" (.ok "") (.body invalidBody)).apikey = "" ∧
    (doLogin testClient "" (.ok "") (.body invalidBody)).res
      = .err ("Invalid response: " ++ invalidBody.reason) ∧
    (GetHosts testClient (doLogin testClient "" (.ok "") (.body invalidBody)).apikey
      "h" "A" (.ok "") (.body invalidBody) (.ok "[]")
      (.ok []) (.error "x")).loginNetworkCalled = true :=
  invalid_login_clears_key_and_relogins testClient invalidBody (.ok "") (.ok "")
    "h" "A" (.body invalidBody) (.ok "[]") (.ok []) (.error "x") rfl rfl

/-- Claim C5: on a login response with status `ok`, if `privileges` does
not contain the substring `admin` then `doLogin` fails with the
authorization error and caches no key; otherwise it caches the response
`api_key`. -/
theorem ok_login_requires_admin (c : Client) (b : LoginBody)
    (tr : Except String String) (htot : c.totp_secret = "")
    (hst : b.status = "ok") :
    (strContains b.privileges "admin" = false →
      doLogin c "" tr (.body b)
        = ⟨.err "Account does not have admin priveleges", "", true⟩) ∧
    (strContains b.privileges "admin" = true →
      doLogin c "" tr (.body b) = ⟨.ok (), b.api_key, true⟩) := by
  constructor
  · intro hadm
    simp [doLogin, htot, doLoginNet, hst, hadm]
  · intro hadm
    exact doLogin_fresh_ok c b tr htot hst hadm

/-- Claim C5, witness: a non-admin `ok` response fails and caches no
key; an admin `ok` response caches the returned key. -/
theorem ok_login_requires_admin_witness :
    doLogin testClient "" (.ok "") (.body noAdminBody)
      = ⟨.err "Account does not have admin priveleges", "", true⟩ ∧
    doLogin testClient "" (.ok "") (.body okBody)
      = ⟨.ok (), "APIKEY123", true⟩ := by
  constructor
  · exact (ok_login_requires_admin testClient noAdminBody (.ok "") rfl rfl).1 (by decide)
  · exact (ok_login_requires_admin testClient okBody (.ok "") rfl rfl).2 (by decide)

/-- Claim C6: when any of name, record type, or value is empty,
`AddHost` and `UpdateHost` fail with the validation error before any
network activity (no login network call, no HTTP request); when all
three are non-empty, no validation error occurs and the call proceeds
to `doRequest`. -/
theorem add_update_validation_before_network (c : Client) (k n t v : String)
    (tr : Except String String) (ln : LoginOutcome) (mn : HttpOutcome) :
    (n = "" ∨ t = "" ∨ v = "" →
      AddHost c k n t v tr ln mn
        = ⟨.err ("Missing parameters to AddHost. all are required. name: "
            ++ n ++ ", recordType: " ++ t ++ ", value: " ++ v ++ " "),
            k, false, none⟩ ∧
      UpdateHost c k n t v tr ln mn
        = ⟨.err ("Missing parameters to UpdateHost. all are required. name: "
            ++ n ++ ", recordType: " ++ t ++ ", value: " ++ v ++ " "),
            k, false, none⟩) ∧
    (n ≠ "" → t ≠ "" → v ≠ "" →
      AddHost c k n t v tr ln mn
        = opFromRequest
            (doRequest c k "POST" (getApiWithPath c.ApiUrl n t) v tr ln mn)
            (fun _ => .ok ()) ∧
      UpdateHost c k n t v tr ln mn
        = opFromRequest
            (doRequest c k "PUT" (getApiWithPath c.ApiUrl n t) v tr ln mn)
            (fun _ => .ok ())) := by
  constructor
  · intro h
    exact ⟨by rw [AddHost, if_pos h], by rw [UpdateHost, if_pos h]⟩
  · intro hn ht hv
    exact ⟨by rw [AddHost, if_neg (by simp [hn, ht, hv])],
           by rw [UpdateHost, if_neg (by simp [hn, ht, hv])]⟩

/-- Claim C6, witness: an empty name fails validation with no network
activity; all-non-empty parameters proceed to the request. -/
theorem add_update_validation_before_network_witness :
    AddHost testClient "k0" "" "A" "1.2.3.4" (.ok "") (.body okBody) (.ok "ok")
      = ⟨.err ("Missing parameters to AddHost. all are required. name: "
          ++ "" ++ ", recordType: " ++ "A" ++ ", value: " ++ "1.2.3.4" ++ " "),
          "k0", false, none⟩ ∧
    AddHost testClient "k0" "h" "A" "1.2.3.4" (.ok "") (.body okBody) (.ok "ok")
      = opFromRequest
          (doRequest testClient "k0" "POST"
            (getApiWithPath testClient.ApiUrl "h" "A") "1.2.3.4"
            (.ok "") (.body okBody) (.ok "ok"))
          (fun _ => .ok ()) := by
  constructor
  · exact ((add_update_validation_before_network testClient "k0" "" "A" "1.2.3.4"
      (.ok "") (.body okBody) (.ok "ok")).1 (Or.inl rfl)).1
  · exact ((add_update_validation_before_network testClient "k0" "h" "A" "1.2.3.4"
      (.ok "") (.body okBody) (.ok "ok")).2 (by decide) (by decide) (by decide)).1

/-- Claim C8: when the embedded login succeeds with a non-empty cached
key, the request issued by `doRequest` carries exactly the header
`Authorization: Basic base64(email:apikey)` built from the cached API
key (not the password), together with `Accept: json`. -/
theorem doRequest_auth_header_uses_cached_key (c : Client) (k m v : String)
    (u : URL) (tr : Except String String) (ln : LoginOutcome) (mn : HttpOutcome)
    (h1 : (doLogin c k tr ln).res = .ok ()) (h2 : (doLogin c k tr ln).apikey ≠ "") :
    (doRequest c k m u v tr ln mn).mainRequest
      = some
          { method := m, url := u,
            headers := [("Accept", "json"),
              ("Authorization",
                "Basic " ++ base64OfString (c.email ++ ":" ++ (doLogin c k tr ln).apikey))],
            body := v } := by
  simp only [doRequest, h1]
  rw [if_neg h2]
  cases mn <;> rfl

/-- Claim C8, witness at a concrete successful login. -/
theorem doRequest_auth_header_uses_cached_key_witness :
    (doRequest testClient "" "GET" testURL "" (.ok "") (.body okBody) (.ok "[]")).mainRequest
      = some
          { method := "GET", url := testURL,
            headers := [("Accept", "json"),
              ("Authorization",
                "Basic " ++ base64OfString (testClient.email ++ ":"
                  ++ (doLogin testClient "" (.ok "") (.body okBody)).apikey))],
            body := "" } :=
  doRequest_auth_header_uses_cached_key testClient "" "GET" "" testURL
    (.ok "") (.body okBody) (.ok "[]") (by decide) (by decide)

end Gomiabdns
